import Mathlib

/-!
Verification of the Tri-Tender pricing engine.

The pricing core of the repository consists of the pure functions
`_risk_multiplier` and `build_pricing_table` (pricing_engine.py) and the
scenario comparator `compare_pricing_scenarios` (server.py).  They are
embedded here over the rationals; decimal constants are written as
fractions (1.05 = 21/20, 0.02 = 2/100, ...), and Python's `round(x, 2)`
is modelled as round-half-to-even at two decimal places.
-/

/-- Normalized representation of a single pricing line item
(`PricingItemInput` dataclass in pricing_engine.py). -/
structure PricingItemInput where
  description : String
  quantity : ℚ := 1
  unit : String := "unit"
  category : String := "other"
  base_unit_cost : ℚ := 0
  risk_level : String := "medium"
  notes : Option String := none
  cost_basis_hint : Option String := none
  escalation_hint : Option String := none
deriving DecidableEq

/-- Python's binary `max` on rationals, written as its if-then-else
characterization. -/
def ratMax (a b : ℚ) : ℚ := if a ≤ b then b else a

theorem ratMax_eq_max (a b : ℚ) : ratMax a b = max a b := by
  rw [ratMax, max_def]

/-- Round a rational to the nearest integer, ties to even
(the tie-breaking rule of Python's built-in `round`). -/
def roundHalfEven (x : ℚ) : ℤ :=
  if Int.fract x < 1/2 then ⌊x⌋
  else if 1/2 < Int.fract x then ⌊x⌋ + 1
  else if Even ⌊x⌋ then ⌊x⌋ else ⌊x⌋ + 1

/-- `round(x, 2)`: round to two decimal places, ties to even. -/
def round2 (x : ℚ) : ℚ := (roundHalfEven (x * 100) : ℚ) / 100

/-- The base-by-risk-level lookup inside `_risk_multiplier`:
`{"low": 1.00, "medium": 1.05, "high": 1.10}.get(risk_level, 1.05)`. -/
def riskBase (risk_level : String) : ℚ :=
  if risk_level = "low" then 1
  else if risk_level = "medium" then 21/20
  else if risk_level = "high" then 11/10
  else 21/20

/-- `_risk_multiplier(risk_level, strategy)` from pricing_engine.py:
strategy "low_cost" subtracts 0.02 from the base, "premium" adds 0.03,
anything else leaves it unchanged; the result is floored at 0.90. -/
def risk_multiplier (risk_level strategy : String) : ℚ :=
  let base := riskBase risk_level
  let base :=
    if strategy = "low_cost" then base - 2/100
    else if strategy = "premium" then base + 3/100
    else base
  ratMax base (90/100)

/-- Per-item `effective_unit_cost = item.base_unit_cost * risk_mult`. -/
def effective_unit_cost (item : PricingItemInput) (strategy : String) : ℚ :=
  item.base_unit_cost * risk_multiplier item.risk_level strategy

/-- Per-item `direct_cost = effective_unit_cost * item.quantity`. -/
def direct_cost (item : PricingItemInput) (strategy : String) : ℚ :=
  effective_unit_cost item strategy * item.quantity

/-- The running accumulation `subtotal_direct_cost += direct_cost`
over the items, in full (unrounded) precision. -/
def subtotal_direct_cost (items : List PricingItemInput) (strategy : String) : ℚ :=
  (items.map fun item => direct_cost item strategy).sum

/-- One output row of the pricing table (a dict in the source). -/
structure PricedLine where
  line_no : Nat
  description : String
  quantity : ℚ
  unit : String
  category : String
  risk_level : String
  base_unit_cost : ℚ
  effective_unit_cost : ℚ
  line_total_excl_markups : ℚ
  notes : Option String
  cost_basis_hint : Option String
  escalation_hint : Option String
deriving DecidableEq

/-- The line-item dict built for `item` at 1-based position `idx`. -/
def toPricedLine (idx : Nat) (item : PricingItemInput) (strategy : String) : PricedLine :=
  { line_no := idx
    description := item.description
    quantity := item.quantity
    unit := item.unit
    category := item.category
    risk_level := item.risk_level
    base_unit_cost := round2 item.base_unit_cost
    effective_unit_cost := round2 (effective_unit_cost item strategy)
    line_total_excl_markups := round2 (direct_cost item strategy)
    notes := item.notes
    cost_basis_hint := item.cost_basis_hint
    escalation_hint := item.escalation_hint }

/-- The loop `for idx, item in enumerate(typed_items, start=1)` building
the output rows. -/
def numberLines (idx : Nat) (items : List PricingItemInput) (strategy : String) :
    List PricedLine :=
  match items with
  | [] => []
  | item :: rest => toPricedLine idx item strategy :: numberLines (idx + 1) rest strategy

/-- The unrounded markup-cascade values computed by `build_pricing_table`
before the final `round(..., 2)` calls. -/
structure RawTotals where
  subtotal_direct_cost : ℚ
  overhead_amount : ℚ
  contingency_amount : ℚ
  profit_amount : ℚ
  total_excl_tax : ℚ
  tax_amount : ℚ
  total_incl_tax : ℚ
deriving DecidableEq

/-- The cascade of pricing_engine.py lines 138-150, in source order. -/
def rawTotals (items : List PricingItemInput) (strategy : String)
    (overhead_pct profit_margin_pct contingency_pct tax_rate_pct : ℚ) : RawTotals :=
  let subtotal := subtotal_direct_cost items strategy
  let overhead_amount := subtotal * (overhead_pct / 100)
  let contingency_amount := subtotal * (contingency_pct / 100)
  let profit_base := subtotal + overhead_amount + contingency_amount
  let profit_amount := profit_base * (profit_margin_pct / 100)
  let total_excl_tax := subtotal + overhead_amount + contingency_amount + profit_amount
  let tax_amount := total_excl_tax * (tax_rate_pct / 100)
  let total_incl_tax := total_excl_tax + tax_amount
  { subtotal_direct_cost := subtotal
    overhead_amount := overhead_amount
    contingency_amount := contingency_amount
    profit_amount := profit_amount
    total_excl_tax := total_excl_tax
    tax_amount := tax_amount
    total_incl_tax := total_incl_tax }

/-- The `totals` dict of the result. -/
structure Totals where
  currency_symbol : String
  subtotal_direct_cost : ℚ
  overhead_pct : ℚ
  overhead_amount : ℚ
  contingency_pct : ℚ
  contingency_amount : ℚ
  profit_margin_pct : ℚ
  profit_amount : ℚ
  tax_rate_pct : ℚ
  tax_amount : ℚ
  total_excl_tax : ℚ
  total_incl_tax : ℚ
deriving DecidableEq

/-- The echoed `inputs` dict of the result. -/
structure PricingInputs where
  overhead_pct : ℚ
  profit_margin_pct : ℚ
  contingency_pct : ℚ
  tax_rate_pct : ℚ
  currency_symbol : String
deriving DecidableEq

/-- The full return value of `build_pricing_table`. -/
structure PricingModel where
  strategy : String
  inputs : PricingInputs
  line_items : List PricedLine
  totals : Totals
deriving DecidableEq

/-- `build_pricing_table` from pricing_engine.py: per-item risk-adjusted
costing, then the overhead/contingency/profit/tax cascade, all stored
amounts rounded to 2 decimals. -/
def build_pricing_table (typed_items : List PricingItemInput) (strategy : String)
    (overhead_pct profit_margin_pct contingency_pct tax_rate_pct : ℚ)
    (currency_symbol : String) : PricingModel :=
  let line_items_output := numberLines 1 typed_items strategy
  let raw := rawTotals typed_items strategy
    overhead_pct profit_margin_pct contingency_pct tax_rate_pct
  { strategy := strategy
    inputs :=
      { overhead_pct := overhead_pct
        profit_margin_pct := profit_margin_pct
        contingency_pct := contingency_pct
        tax_rate_pct := tax_rate_pct
        currency_symbol := currency_symbol }
    line_items := line_items_output
    totals :=
      { currency_symbol := currency_symbol
        subtotal_direct_cost := round2 raw.subtotal_direct_cost
        overhead_pct := overhead_pct
        overhead_amount := round2 raw.overhead_amount
        contingency_pct := contingency_pct
        contingency_amount := round2 raw.contingency_amount
        profit_margin_pct := profit_margin_pct
        profit_amount := round2 raw.profit_amount
        tax_rate_pct := tax_rate_pct
        tax_amount := round2 raw.tax_amount
        total_excl_tax := round2 raw.total_excl_tax
        total_incl_tax := round2 raw.total_incl_tax } }

/-- Claim C3: for every pair of strings (risk_level, strategy), including
values outside the documented enumerations, the risk multiplier returned by
`_risk_multiplier` is at least 0.90. -/
theorem risk_multiplier_floor (risk_level strategy : String) :
    (90/100 : ℚ) ≤ risk_multiplier risk_level strategy := by
  unfold risk_multiplier
  rw [ratMax_eq_max]
  exact le_max_right _ _

/-- Claim C1: for the single item {base_unit_cost=100, quantity=2,
risk_level="medium"} with strategy="balanced", overhead_pct=15,
contingency_pct=5, profit_margin_pct=20, tax_rate_pct=15,
`build_pricing_table` returns risk multiplier 1.05, effective unit cost
105.00, line total 210.00, subtotal 210.00, overhead 31.50, contingency
10.50, profit 50.40, total excl. tax 302.40, tax 45.36 and total incl.
tax 347.76. -/
theorem scenarioA_balanced_values :
    risk_multiplier "medium" "balanced" = 21/20 ∧
    ((build_pricing_table
        [{ description := "item", quantity := 2, base_unit_cost := 100,
           risk_level := "medium" }]
        "balanced" 15 20 5 15 "R").line_items.map
      fun li => (li.effective_unit_cost, li.line_total_excl_markups))
      = [(105, 210)] ∧
    (build_pricing_table
        [{ description := "item", quantity := 2, base_unit_cost := 100,
           risk_level := "medium" }]
        "balanced" 15 20 5 15 "R").totals =
      { currency_symbol := "R"
        subtotal_direct_cost := 210
        overhead_pct := 15
        overhead_amount := 3150/100
        contingency_pct := 5
        contingency_amount := 1050/100
        profit_margin_pct := 20
        profit_amount := 5040/100
        tax_rate_pct := 15
        tax_amount := 4536/100
        total_excl_tax := 30240/100
        total_incl_tax := 34776/100 } := by
  refine ⟨?_, ?_, ?_⟩ <;>
    · simp only [build_pricing_table, rawTotals, subtotal_direct_cost, numberLines,
        toPricedLine, direct_cost, effective_unit_cost, risk_multiplier, riskBase,
        ratMax, round2, roundHalfEven, List.map, List.sum_cons, List.sum_nil,
        String.reduceEq, reduceIte, Totals.mk.injEq]
      norm_num [Int.fract]

theorem floor_le_roundHalfEven (x : ℚ) : ⌊x⌋ ≤ roundHalfEven x := by
  unfold roundHalfEven
  split_ifs <;> omega

theorem roundHalfEven_le_floor_add_one (x : ℚ) : roundHalfEven x ≤ ⌊x⌋ + 1 := by
  unfold roundHalfEven
  split_ifs <;> omega

theorem abs_roundHalfEven_sub (x : ℚ) : |(roundHalfEven x : ℚ) - x| ≤ 1/2 := by
  have hfl : (⌊x⌋ : ℚ) = x - Int.fract x := by
    rw [Int.fract]; ring
  have h0 := Int.fract_nonneg x
  have h1 := Int.fract_lt_one x
  unfold roundHalfEven
  split_ifs <;>
    · rw [abs_le]
      push_cast
      constructor <;> linarith

theorem roundHalfEven_mono {x y : ℚ} (h : x ≤ y) :
    roundHalfEven x ≤ roundHalfEven y := by
  have hff : ⌊x⌋ ≤ ⌊y⌋ := Int.floor_le_floor h
  rcases lt_or_eq_of_le hff with hlt | heq
  · have h1 := roundHalfEven_le_floor_add_one x
    have h2 := floor_le_roundHalfEven y
    omega
  · have hfr : Int.fract x ≤ Int.fract y := by
      rw [Int.fract, Int.fract, ← heq]
      linarith
    unfold roundHalfEven
    rw [← heq]
    split_ifs <;> first | omega | linarith

theorem round2_mono {x y : ℚ} (h : x ≤ y) : round2 x ≤ round2 y := by
  unfold round2
  have hr : roundHalfEven (x * 100) ≤ roundHalfEven (y * 100) :=
    roundHalfEven_mono (by linarith)
  have h100 : ((roundHalfEven (x * 100) : ℤ) : ℚ) ≤ ((roundHalfEven (y * 100) : ℤ) : ℚ) := by
    exact_mod_cast hr
  linarith

theorem round2_add_err (a b : ℚ) : |round2 (a + b) - round2 a - round2 b| ≤ 1/100 := by
  have hsum : round2 (a + b) - round2 a - round2 b =
      ((roundHalfEven ((a + b) * 100) - roundHalfEven (a * 100) -
        roundHalfEven (b * 100) : ℤ) : ℚ) / 100 := by
    unfold round2
    push_cast
    ring
  set k : ℤ := roundHalfEven ((a + b) * 100) - roundHalfEven (a * 100) -
    roundHalfEven (b * 100) with hk
  have h1 := abs_roundHalfEven_sub ((a + b) * 100)
  have h2 := abs_roundHalfEven_sub (a * 100)
  have h3 := abs_roundHalfEven_sub (b * 100)
  rw [abs_le] at h1 h2 h3
  have hkq : |(k : ℚ)| ≤ 3/2 := by
    rw [hk]
    push_cast
    rw [abs_le]
    constructor <;> nlinarith [h1.1, h1.2, h2.1, h2.2, h3.1, h3.2]
  have hk1 : |k| ≤ 1 := by
    by_contra hcon
    push_neg at hcon
    have h2k : (2 : ℚ) ≤ |(k : ℚ)| := by
      rw [← Int.cast_abs]
      exact_mod_cast hcon
    linarith
  rw [hsum, abs_div, ← Int.cast_abs, abs_of_pos (by norm_num : (0:ℚ) < 100)]
  have hcast : ((|k| : ℤ) : ℚ) ≤ 1 := by exact_mod_cast hk1
  linarith

theorem round2_zero : round2 0 = 0 := by
  norm_num [round2, roundHalfEven, Int.fract]

/-- Claim C2: for every item list and rate parameters,
`build_pricing_table` accumulates the subtotal as the sum of the
unrounded line totals (`effective_unit_cost * quantity`, not rounded
before accumulation) and computes the markup cascade in the fixed order
overhead, contingency, profit (on subtotal + overhead + contingency),
total excl. tax, tax (on total excl. tax), total incl. tax; rounding to
two decimals is applied only to the stored output values. -/
theorem cascade_order_and_unrounded_subtotal (typed_items : List PricingItemInput)
    (strategy : String)
    (overhead_pct profit_margin_pct contingency_pct tax_rate_pct : ℚ)
    (currency_symbol : String) :
    subtotal_direct_cost typed_items strategy =
      (typed_items.map fun item =>
        item.base_unit_cost * risk_multiplier item.risk_level strategy *
          item.quantity).sum ∧
    (build_pricing_table typed_items strategy overhead_pct profit_margin_pct
        contingency_pct tax_rate_pct currency_symbol).totals.subtotal_direct_cost
      = round2 (subtotal_direct_cost typed_items strategy) ∧
    (build_pricing_table typed_items strategy overhead_pct profit_margin_pct
        contingency_pct tax_rate_pct currency_symbol).totals.overhead_amount
      = round2 (subtotal_direct_cost typed_items strategy * (overhead_pct / 100)) ∧
    (build_pricing_table typed_items strategy overhead_pct profit_margin_pct
        contingency_pct tax_rate_pct currency_symbol).totals.contingency_amount
      = round2 (subtotal_direct_cost typed_items strategy * (contingency_pct / 100)) ∧
    (build_pricing_table typed_items strategy overhead_pct profit_margin_pct
        contingency_pct tax_rate_pct currency_symbol).totals.profit_amount
      = round2 ((subtotal_direct_cost typed_items strategy +
          subtotal_direct_cost typed_items strategy * (overhead_pct / 100) +
          subtotal_direct_cost typed_items strategy * (contingency_pct / 100)) *
          (profit_margin_pct / 100)) ∧
    (build_pricing_table typed_items strategy overhead_pct profit_margin_pct
        contingency_pct tax_rate_pct currency_symbol).totals.total_excl_tax
      = round2 (subtotal_direct_cost typed_items strategy +
          subtotal_direct_cost typed_items strategy * (overhead_pct / 100) +
          subtotal_direct_cost typed_items strategy * (contingency_pct / 100) +
          (subtotal_direct_cost typed_items strategy +
            subtotal_direct_cost typed_items strategy * (overhead_pct / 100) +
            subtotal_direct_cost typed_items strategy * (contingency_pct / 100)) *
            (profit_margin_pct / 100)) ∧
    (build_pricing_table typed_items strategy overhead_pct profit_margin_pct
        contingency_pct tax_rate_pct currency_symbol).totals.tax_amount
      = round2 ((rawTotals typed_items strategy overhead_pct profit_margin_pct
          contingency_pct tax_rate_pct).total_excl_tax * (tax_rate_pct / 100)) ∧
    (build_pricing_table typed_items strategy overhead_pct profit_margin_pct
        contingency_pct tax_rate_pct currency_symbol).totals.total_incl_tax
      = round2 ((rawTotals typed_items strategy overhead_pct profit_margin_pct
          contingency_pct tax_rate_pct).total_excl_tax +
          (rawTotals typed_items strategy overhead_pct profit_margin_pct
            contingency_pct tax_rate_pct).total_excl_tax * (tax_rate_pct / 100)) :=
  ⟨rfl, rfl, rfl, rfl, rfl, rfl, rfl, rfl⟩

/-- Claim C7: for every strategy and rate parameters, an empty item list
is not an error: `build_pricing_table` returns empty `line_items` and all
stored totals equal to 0.00. -/
theorem empty_items_zero_totals (strategy : String)
    (overhead_pct profit_margin_pct contingency_pct tax_rate_pct : ℚ)
    (currency_symbol : String) :
    (build_pricing_table [] strategy overhead_pct profit_margin_pct
        contingency_pct tax_rate_pct currency_symbol).line_items = [] ∧
    (build_pricing_table [] strategy overhead_pct profit_margin_pct
        contingency_pct tax_rate_pct currency_symbol).totals.subtotal_direct_cost = 0 ∧
    (build_pricing_table [] strategy overhead_pct profit_margin_pct
        contingency_pct tax_rate_pct currency_symbol).totals.overhead_amount = 0 ∧
    (build_pricing_table [] strategy overhead_pct profit_margin_pct
        contingency_pct tax_rate_pct currency_symbol).totals.contingency_amount = 0 ∧
    (build_pricing_table [] strategy overhead_pct profit_margin_pct
        contingency_pct tax_rate_pct currency_symbol).totals.profit_amount = 0 ∧
    (build_pricing_table [] strategy overhead_pct profit_margin_pct
        contingency_pct tax_rate_pct currency_symbol).totals.tax_amount = 0 ∧
    (build_pricing_table [] strategy overhead_pct profit_margin_pct
        contingency_pct tax_rate_pct currency_symbol).totals.total_excl_tax = 0 ∧
    (build_pricing_table [] strategy overhead_pct profit_margin_pct
        contingency_pct tax_rate_pct currency_symbol).totals.total_incl_tax = 0 := by
  simp only [build_pricing_table, rawTotals, subtotal_direct_cost, numberLines,
    List.map_nil, List.sum_nil, zero_mul, add_zero, zero_add, round2_zero,
    and_self, and_true, true_and]

/-- Claim C4, counterexample: for the single item
{base_unit_cost=1.004, quantity=1, risk_level="low"} with
strategy="balanced", overhead 0, contingency 0, profit 0, tax rate 100,
the stored totals are total_excl_tax=1.00, tax_amount=1.00,
total_incl_tax=2.01, so total_incl_tax - total_excl_tax (= 1.01) is not
equal to tax_amount. -/
theorem totals_tax_identity_fails_at_rounding :
    ¬ ((build_pricing_table
          [{ description := "x", quantity := 1, base_unit_cost := 251/250,
             risk_level := "low" }] "balanced" 0 0 0 100 "R").totals.total_incl_tax -
        (build_pricing_table
          [{ description := "x", quantity := 1, base_unit_cost := 251/250,
             risk_level := "low" }] "balanced" 0 0 0 100 "R").totals.total_excl_tax =
        (build_pricing_table
          [{ description := "x", quantity := 1, base_unit_cost := 251/250,
             risk_level := "low" }] "balanced" 0 0 0 100 "R").totals.tax_amount) := by
  simp only [build_pricing_table, rawTotals, subtotal_direct_cost, numberLines,
    toPricedLine, direct_cost, effective_unit_cost, risk_multiplier, riskBase,
    ratMax, round2, roundHalfEven, List.map, List.sum_cons, List.sum_nil,
    String.reduceEq, reduceIte]
  norm_num [Int.fract]

/-- Claim C4, amended: the identity
`total_incl_tax - total_excl_tax = tax_amount` holds exactly for the
unrounded cascade values; for the stored 2-decimal-rounded totals of
`build_pricing_table` it holds within one cent (the absolute difference
is at most 0.01), because the three amounts are rounded independently. -/
theorem totals_tax_identity_within_one_cent (items : List PricingItemInput)
    (strategy : String)
    (overhead_pct profit_margin_pct contingency_pct tax_rate_pct : ℚ)
    (currency_symbol : String) :
    (rawTotals items strategy overhead_pct profit_margin_pct contingency_pct
        tax_rate_pct).total_incl_tax -
      (rawTotals items strategy overhead_pct profit_margin_pct contingency_pct
        tax_rate_pct).total_excl_tax =
      (rawTotals items strategy overhead_pct profit_margin_pct contingency_pct
        tax_rate_pct).tax_amount ∧
    |((build_pricing_table items strategy overhead_pct profit_margin_pct
        contingency_pct tax_rate_pct currency_symbol).totals.total_incl_tax -
      (build_pricing_table items strategy overhead_pct profit_margin_pct
        contingency_pct tax_rate_pct currency_symbol).totals.total_excl_tax) -
      (build_pricing_table items strategy overhead_pct profit_margin_pct
        contingency_pct tax_rate_pct currency_symbol).totals.tax_amount| ≤ 1/100 := by
  constructor
  · show (rawTotals items strategy overhead_pct profit_margin_pct contingency_pct
        tax_rate_pct).total_excl_tax +
      (rawTotals items strategy overhead_pct profit_margin_pct contingency_pct
        tax_rate_pct).tax_amount -
      (rawTotals items strategy overhead_pct profit_margin_pct contingency_pct
        tax_rate_pct).total_excl_tax =
      (rawTotals items strategy overhead_pct profit_margin_pct contingency_pct
        tax_rate_pct).tax_amount
    ring
  · have h := round2_add_err
      (rawTotals items strategy overhead_pct profit_margin_pct contingency_pct
        tax_rate_pct).total_excl_tax
      (rawTotals items strategy overhead_pct profit_margin_pct contingency_pct
        tax_rate_pct).tax_amount
    exact h

/-- Claim C9: an unrecognized risk level uses the medium base (1.05) for
every strategy; and any strategy other than "low_cost" and "premium"
(including "balanced" and unrecognized strings) leaves the base
multiplier unchanged (only the 0.90 floor is applied), with no error. -/
theorem risk_multiplier_defaults (risk_level strategy : String) :
    ((risk_level ≠ "low" ∧ risk_level ≠ "medium" ∧ risk_level ≠ "high") →
      risk_multiplier risk_level strategy = risk_multiplier "medium" strategy) ∧
    ((strategy ≠ "low_cost" ∧ strategy ≠ "premium") →
      risk_multiplier risk_level strategy = ratMax (riskBase risk_level) (90/100)) := by
  constructor
  · rintro ⟨h1, h2, h3⟩
    have hbase : riskBase risk_level = 21/20 := by
      unfold riskBase
      rw [if_neg h1, if_neg h2, if_neg h3]
    have hmed : riskBase "medium" = 21/20 := by
      simp [riskBase]
    unfold risk_multiplier
    rw [hbase, hmed]
  · rintro ⟨h1, h2⟩
    unfold risk_multiplier
    simp only [if_neg h1, if_neg h2]

/-- Claim C9, witness at the concrete out-of-enumeration pair
("extreme", "weird"). -/
theorem risk_multiplier_defaults_witness :
    risk_multiplier "extreme" "weird" = risk_multiplier "medium" "weird" ∧
    risk_multiplier "extreme" "weird" = ratMax (riskBase "extreme") (90/100) :=
  ⟨(risk_multiplier_defaults "extreme" "weird").1 ⟨by simp, by simp, by simp⟩,
   (risk_multiplier_defaults "extreme" "weird").2 ⟨by simp, by simp⟩⟩

theorem mult_lowcost_le_balanced (risk_level : String) :
    risk_multiplier risk_level "low_cost" ≤ risk_multiplier risk_level "balanced" := by
  unfold risk_multiplier
  simp only [String.reduceEq, reduceIte]
  rw [ratMax_eq_max, ratMax_eq_max]
  exact max_le_max (by linarith) le_rfl

theorem mult_balanced_le_premium (risk_level : String) :
    risk_multiplier risk_level "balanced" ≤ risk_multiplier risk_level "premium" := by
  unfold risk_multiplier
  simp only [String.reduceEq, reduceIte]
  rw [ratMax_eq_max, ratMax_eq_max]
  exact max_le_max (by linarith) le_rfl

theorem subtotal_direct_cost_mono (items : List PricingItemInput) (s1 s2 : String)
    (hitems : ∀ item ∈ items, 0 ≤ item.base_unit_cost ∧ 0 ≤ item.quantity)
    (hm : ∀ rl, risk_multiplier rl s1 ≤ risk_multiplier rl s2) :
    subtotal_direct_cost items s1 ≤ subtotal_direct_cost items s2 := by
  induction items with
  | nil => simp [subtotal_direct_cost]
  | cons item rest ih =>
    have hitem := hitems item (List.mem_cons_self _ _)
    have hrest : ∀ i ∈ rest, 0 ≤ i.base_unit_cost ∧ 0 ≤ i.quantity :=
      fun i hi => hitems i (List.mem_cons_of_mem _ hi)
    simp only [subtotal_direct_cost, List.map_cons, List.sum_cons]
    have hterm : direct_cost item s1 ≤ direct_cost item s2 := by
      unfold direct_cost effective_unit_cost
      nlinarith [hitem.1, hitem.2, hm item.risk_level,
        mul_nonneg (mul_nonneg hitem.1
          (sub_nonneg.mpr (hm item.risk_level))) hitem.2]
    exact add_le_add hterm (ih hrest)

theorem raw_total_excl_eq (items : List PricingItemInput) (strategy : String)
    (overhead_pct profit_margin_pct contingency_pct tax_rate_pct : ℚ) :
    (rawTotals items strategy overhead_pct profit_margin_pct contingency_pct
        tax_rate_pct).total_excl_tax =
      subtotal_direct_cost items strategy *
        ((1 + overhead_pct / 100 + contingency_pct / 100) *
          (1 + profit_margin_pct / 100)) := by
  simp only [rawTotals]
  ring

/-- Claim C5, counterexample: with a single medium-risk item of cost 100
and overhead_pct = -300 (negative rates are accepted by the engine), the
stored total_excl_tax under "low_cost" (-206.00) is strictly greater than
under "balanced" (-210.00), so the claimed ordering fails for arbitrary
rate parameters. -/
theorem strategy_ordering_fails_negative_overhead :
    ¬ ((build_pricing_table
          [{ description := "x", quantity := 1, base_unit_cost := 100,
             risk_level := "medium" }] "low_cost" (-300) 0 0 0 "R").totals.total_excl_tax ≤
        (build_pricing_table
          [{ description := "x", quantity := 1, base_unit_cost := 100,
             risk_level := "medium" }] "balanced" (-300) 0 0 0 "R").totals.total_excl_tax) := by
  simp only [build_pricing_table, rawTotals, subtotal_direct_cost, numberLines,
    toPricedLine, direct_cost, effective_unit_cost, risk_multiplier, riskBase,
    ratMax, round2, roundHalfEven, List.map, List.sum_cons, List.sum_nil,
    String.reduceEq, reduceIte]
  norm_num [Int.fract]

/-- Claim C5, amended: the risk multiplier is non-decreasing across
"low_cost", "balanced", "premium" for every risk level (unconditionally);
and for items with non-negative base_unit_cost and quantity and
non-negative overhead, contingency and profit-margin percentages, the
stored total_excl_tax is non-decreasing across the three strategies. -/
theorem strategy_ordering_of_nonneg (items : List PricingItemInput)
    (overhead_pct profit_margin_pct contingency_pct tax_rate_pct : ℚ)
    (currency_symbol : String)
    (hitems : ∀ item ∈ items, 0 ≤ item.base_unit_cost ∧ 0 ≤ item.quantity)
    (hov : 0 ≤ overhead_pct) (hpm : 0 ≤ profit_margin_pct)
    (hcont : 0 ≤ contingency_pct) :
    (∀ risk_level,
      risk_multiplier risk_level "low_cost" ≤ risk_multiplier risk_level "balanced" ∧
      risk_multiplier risk_level "balanced" ≤ risk_multiplier risk_level "premium") ∧
    (build_pricing_table items "low_cost" overhead_pct profit_margin_pct
        contingency_pct tax_rate_pct currency_symbol).totals.total_excl_tax ≤
      (build_pricing_table items "balanced" overhead_pct profit_margin_pct
        contingency_pct tax_rate_pct currency_symbol).totals.total_excl_tax ∧
    (build_pricing_table items "balanced" overhead_pct profit_margin_pct
        contingency_pct tax_rate_pct currency_symbol).totals.total_excl_tax ≤
      (build_pricing_table items "premium" overhead_pct profit_margin_pct
        contingency_pct tax_rate_pct currency_symbol).totals.total_excl_tax := by
  have hfac : (0:ℚ) ≤ (1 + overhead_pct / 100 + contingency_pct / 100) *
      (1 + profit_margin_pct / 100) :=
    mul_nonneg (by linarith) (by linarith)
  have hstep : ∀ s1 s2 : String, (∀ rl, risk_multiplier rl s1 ≤ risk_multiplier rl s2) →
      (build_pricing_table items s1 overhead_pct profit_margin_pct
        contingency_pct tax_rate_pct currency_symbol).totals.total_excl_tax ≤
      (build_pricing_table items s2 overhead_pct profit_margin_pct
        contingency_pct tax_rate_pct currency_symbol).totals.total_excl_tax := by
    intro s1 s2 hm
    have hsub := subtotal_direct_cost_mono items s1 s2 hitems hm
    have hraw : (rawTotals items s1 overhead_pct profit_margin_pct contingency_pct
        tax_rate_pct).total_excl_tax ≤
        (rawTotals items s2 overhead_pct profit_margin_pct contingency_pct
          tax_rate_pct).total_excl_tax := by
      rw [raw_total_excl_eq, raw_total_excl_eq]
      exact mul_le_mul_of_nonneg_right hsub hfac
    exact round2_mono hraw
  exact ⟨fun rl => ⟨mult_lowcost_le_balanced rl, mult_balanced_le_premium rl⟩,
    hstep _ _ mult_lowcost_le_balanced, hstep _ _ mult_balanced_le_premium⟩

/-- Claim C5, witness at a concrete valid input. -/
theorem strategy_ordering_of_nonneg_witness :
    (build_pricing_table
        [{ description := "item", quantity := 2, base_unit_cost := 100,
           risk_level := "medium" }] "low_cost" 15 20 5 15 "R").totals.total_excl_tax ≤
      (build_pricing_table
        [{ description := "item", quantity := 2, base_unit_cost := 100,
           risk_level := "medium" }] "balanced" 15 20 5 15 "R").totals.total_excl_tax ∧
    (build_pricing_table
        [{ description := "item", quantity := 2, base_unit_cost := 100,
           risk_level := "medium" }] "balanced" 15 20 5 15 "R").totals.total_excl_tax ≤
      (build_pricing_table
        [{ description := "item", quantity := 2, base_unit_cost := 100,
           risk_level := "medium" }] "premium" 15 20 5 15 "R").totals.total_excl_tax := by
  have h := strategy_ordering_of_nonneg
    [{ description := "item", quantity := 2, base_unit_cost := 100,
       risk_level := "medium" }] 15 20 5 15 "R"
    (by
      intro item hmem
      rw [List.mem_singleton] at hmem
      subst hmem
      constructor <;> norm_num)
    (by norm_num) (by norm_num) (by norm_num)
  exact ⟨h.2.1, h.2.2⟩

/-- Claim C6, counterexample: for the empty item list with
overhead_pct=15 > 0, contingency_pct=5 > 0 and profit_margin_pct=20 > 0,
both the stored subtotal_direct_cost and total_excl_tax are 0, so
total_excl_tax is not strictly greater than subtotal_direct_cost. -/
theorem cascade_strictness_fails_empty :
    ¬ ((build_pricing_table [] "balanced" 15 20 5 15 "R").totals.subtotal_direct_cost <
       (build_pricing_table [] "balanced" 15 20 5 15 "R").totals.total_excl_tax) := by
  simp only [build_pricing_table, rawTotals, subtotal_direct_cost, numberLines,
    List.map_nil, List.sum_nil, zero_mul, add_zero, zero_add, round2_zero]
  norm_num

/-- Claim C6, amended: with overhead_pct > 0, contingency_pct > 0 and
profit_margin_pct > 0, and a strictly positive (unrounded) direct-cost
subtotal, the unrounded total_excl_tax strictly exceeds the unrounded
subtotal, and the stored (2-decimal-rounded) total_excl_tax is at least
the stored subtotal_direct_cost.  (For an empty item list, or items
summing to zero, the two coincide, so the unamended strict claim
fails.) -/
theorem cascade_monotonicity_of_positive_subtotal (items : List PricingItemInput)
    (strategy : String)
    (overhead_pct profit_margin_pct contingency_pct tax_rate_pct : ℚ)
    (currency_symbol : String)
    (hov : 0 < overhead_pct) (hpm : 0 < profit_margin_pct)
    (hcont : 0 < contingency_pct)
    (hS : 0 < subtotal_direct_cost items strategy) :
    subtotal_direct_cost items strategy <
      (rawTotals items strategy overhead_pct profit_margin_pct contingency_pct
        tax_rate_pct).total_excl_tax ∧
    (build_pricing_table items strategy overhead_pct profit_margin_pct
        contingency_pct tax_rate_pct currency_symbol).totals.subtotal_direct_cost ≤
      (build_pricing_table items strategy overhead_pct profit_margin_pct
        contingency_pct tax_rate_pct currency_symbol).totals.total_excl_tax := by
  have hraw : subtotal_direct_cost items strategy <
      (rawTotals items strategy overhead_pct profit_margin_pct contingency_pct
        tax_rate_pct).total_excl_tax := by
    rw [raw_total_excl_eq]
    nlinarith [mul_pos hS (show (0:ℚ) < overhead_pct / 100 by linarith),
      mul_pos hS (show (0:ℚ) < contingency_pct / 100 by linarith),
      mul_pos hS (show (0:ℚ) < profit_margin_pct / 100 by linarith),
      mul_pos (mul_pos hS (show (0:ℚ) < overhead_pct / 100 by linarith))
        (show (0:ℚ) < profit_margin_pct / 100 by linarith),
      mul_pos (mul_pos hS (show (0:ℚ) < contingency_pct / 100 by linarith))
        (show (0:ℚ) < profit_margin_pct / 100 by linarith)]
  exact ⟨hraw, round2_mono (le_of_lt hraw)⟩

/-- Claim C6, witness at a concrete input with positive subtotal. -/
theorem cascade_monotonicity_of_positive_subtotal_witness :
    subtotal_direct_cost
        [{ description := "item", quantity := 2, base_unit_cost := 100,
           risk_level := "medium" }] "balanced" <
      (rawTotals
        [{ description := "item", quantity := 2, base_unit_cost := 100,
           risk_level := "medium" }] "balanced" 15 20 5 15).total_excl_tax ∧
    (build_pricing_table
        [{ description := "item", quantity := 2, base_unit_cost := 100,
           risk_level := "medium" }] "balanced" 15 20 5 15 "R").totals.subtotal_direct_cost ≤
      (build_pricing_table
        [{ description := "item", quantity := 2, base_unit_cost := 100,
           risk_level := "medium" }] "balanced" 15 20 5 15 "R").totals.total_excl_tax :=
  cascade_monotonicity_of_positive_subtotal
    [{ description := "item", quantity := 2, base_unit_cost := 100,
       risk_level := "medium" }] "balanced" 15 20 5 15 "R"
    (by norm_num) (by norm_num) (by norm_num)
    (by
      simp only [subtotal_direct_cost, direct_cost, effective_unit_cost,
        risk_multiplier, riskBase, ratMax, List.map, List.sum_cons, List.sum_nil,
        String.reduceEq, reduceIte]
      norm_num)

/-- Insertion into a Python dict modelled as an association list:
assigning to an existing key replaces its value in place, a new key is
appended at the end (insertion order). -/
def dictInsert {α : Type} (m : List (String × α)) (k : String) (v : α) :
    List (String × α) :=
  match m with
  | [] => [(k, v)]
  | (k', v') :: rest =>
    if k' = k then (k, v) :: rest else (k', v') :: dictInsert rest k v

/-- Lookup in the association-list dict model. -/
def dictGet {α : Type} (m : List (String × α)) (k : String) : Option α :=
  match m with
  | [] => none
  | (k', v') :: rest => if k' = k then some v' else dictGet rest k

theorem dictInsert_keys {α : Type} (m : List (String × α)) (k : String) (v : α) :
    (dictInsert m k v).map Prod.fst =
      if k ∈ m.map Prod.fst then m.map Prod.fst else m.map Prod.fst ++ [k] := by
  induction m with
  | nil => simp [dictInsert]
  | cons p rest ih =>
    obtain ⟨k', v'⟩ := p
    by_cases hk : k' = k
    · subst hk
      simp [dictInsert]
    · by_cases hmem : k ∈ rest.map Prod.fst
      · simp [dictInsert, hk, hmem, ih, Ne.symm hk]
      · simp [dictInsert, hk, hmem, ih, Ne.symm hk]

theorem dictInsert_keys_nodup {α : Type} {m : List (String × α)} (k : String) (v : α)
    (h : (m.map Prod.fst).Nodup) : ((dictInsert m k v).map Prod.fst).Nodup := by
  rw [dictInsert_keys]
  by_cases hmem : k ∈ m.map Prod.fst
  · simpa [hmem] using h
  · simp [hmem, List.nodup_append, h]

theorem foldl_dictInsert_keys_nodup {α : Type} (f : String → α) (l : List String)
    (m : List (String × α)) (h : (m.map Prod.fst).Nodup) :
    ((l.foldl (fun acc k => dictInsert acc k (f k)) m).map Prod.fst).Nodup := by
  induction l generalizing m with
  | nil => simpa using h
  | cons a rest ih =>
    simp only [List.foldl_cons]
    exact ih _ (dictInsert_keys_nodup a (f a) h)

theorem dictGet_insert_self {α : Type} (m : List (String × α)) (k : String) (v : α) :
    dictGet (dictInsert m k v) k = some v := by
  induction m with
  | nil => simp [dictInsert, dictGet]
  | cons p rest ih =>
    obtain ⟨k', v'⟩ := p
    by_cases h : k' = k
    · subst h
      simp [dictInsert, dictGet]
    · simp [dictInsert, dictGet, h, ih]

theorem dictGet_insert_ne {α : Type} (m : List (String × α)) {k s : String} (v : α)
    (h : s ≠ k) : dictGet (dictInsert m k v) s = dictGet m s := by
  induction m with
  | nil => simp [dictInsert, dictGet, Ne.symm h]
  | cons p rest ih =>
    obtain ⟨k', v'⟩ := p
    by_cases hk : k' = k
    · subst hk
      simp [dictInsert, dictGet, Ne.symm h]
    · simp only [dictInsert, if_neg hk]
      by_cases hks : k' = s
      · subst hks
        simp [dictGet]
      · simp [dictGet, hks, ih]

theorem dictGet_foldl {α : Type} (f : String → α) (l : List String) (s : String)
    (m : List (String × α)) :
    dictGet (l.foldl (fun acc k => dictInsert acc k (f k)) m) s =
      if s ∈ l then some (f s) else dictGet m s := by
  induction l generalizing m with
  | nil => simp
  | cons a rest ih =>
    simp only [List.foldl_cons]
    rw [ih]
    by_cases hs : s ∈ rest
    · simp [hs]
    · by_cases hsa : s = a
      · subst hsa
        simp [hs, dictGet_insert_self]
      · simp [hs, hsa, dictGet_insert_ne _ _ hsa]

/-- One condensed summary row of the scenario comparison. -/
structure ComparisonRow where
  strategy : String
  total_excl_tax : ℚ
  total_incl_tax : ℚ
  profit_amount : ℚ
  overhead_amount : ℚ
  contingency_amount : ℚ

/-- The `comparison` block of the comparator result. -/
structure Comparison where
  currency_symbol : String
  by_strategy : List ComparisonRow

/-- The full return value of `compare_pricing_scenarios`. -/
structure ComparisonResult where
  scenarios : List (String × PricingModel)
  comparison : Comparison

/-- `compare_pricing_scenarios` from server.py: defaults an omitted or
empty strategies list to ["low_cost", "balanced", "premium"], then runs
`build_pricing_table` once per strategy, storing each model in the
`scenarios` dict keyed by strategy and appending one summary row per
strategy to `comparison.by_strategy`. -/
def compare_pricing_scenarios (pricing_items : List PricingItemInput)
    (strategies : Option (List String))
    (overhead_pct profit_margin_pct contingency_pct tax_rate_pct : ℚ)
    (currency_symbol : String) : ComparisonResult :=
  let strats :=
    match strategies with
    | none => ["low_cost", "balanced", "premium"]
    | some l => if l.length = 0 then ["low_cost", "balanced", "premium"] else l
  { scenarios := strats.foldl (fun m strat => dictInsert m strat
      (build_pricing_table pricing_items strat overhead_pct profit_margin_pct
        contingency_pct tax_rate_pct currency_symbol)) []
    comparison :=
      { currency_symbol := currency_symbol
        by_strategy := strats.map fun strat =>
          { strategy := strat
            total_excl_tax := (build_pricing_table pricing_items strat overhead_pct
              profit_margin_pct contingency_pct tax_rate_pct
              currency_symbol).totals.total_excl_tax
            total_incl_tax := (build_pricing_table pricing_items strat overhead_pct
              profit_margin_pct contingency_pct tax_rate_pct
              currency_symbol).totals.total_incl_tax
            profit_amount := (build_pricing_table pricing_items strat overhead_pct
              profit_margin_pct contingency_pct tax_rate_pct
              currency_symbol).totals.profit_amount
            overhead_amount := (build_pricing_table pricing_items strat overhead_pct
              profit_margin_pct contingency_pct tax_rate_pct
              currency_symbol).totals.overhead_amount
            contingency_amount := (build_pricing_table pricing_items strat overhead_pct
              profit_margin_pct contingency_pct tax_rate_pct
              currency_symbol).totals.contingency_amount } } }

/-- Claim C8: with strategies omitted (None) or an empty list,
`compare_pricing_scenarios` evaluates exactly "low_cost", "balanced",
"premium" in that order; for any explicit non-empty strategies list the
comparison rows preserve the caller-specified order without
deduplication. -/
theorem compare_default_and_order (pricing_items : List PricingItemInput)
    (overhead_pct profit_margin_pct contingency_pct tax_rate_pct : ℚ)
    (currency_symbol : String) :
    ((compare_pricing_scenarios pricing_items none overhead_pct profit_margin_pct
        contingency_pct tax_rate_pct
        currency_symbol).comparison.by_strategy.map fun row => row.strategy)
      = ["low_cost", "balanced", "premium"] ∧
    ((compare_pricing_scenarios pricing_items none overhead_pct profit_margin_pct
        contingency_pct tax_rate_pct currency_symbol).scenarios.map Prod.fst)
      = ["low_cost", "balanced", "premium"] ∧
    ((compare_pricing_scenarios pricing_items (some []) overhead_pct
        profit_margin_pct contingency_pct tax_rate_pct
        currency_symbol).comparison.by_strategy.map fun row => row.strategy)
      = ["low_cost", "balanced", "premium"] ∧
    ∀ l : List String, l ≠ [] →
      ((compare_pricing_scenarios pricing_items (some l) overhead_pct
          profit_margin_pct contingency_pct tax_rate_pct
          currency_symbol).comparison.by_strategy.map fun row => row.strategy) = l := by
  refine ⟨rfl, rfl, rfl, ?_⟩
  intro l hl
  have hlen : ¬ (l.length = 0) := by
    simpa [List.length_eq_zero] using hl
  simp only [compare_pricing_scenarios, if_neg hlen, List.map_map]
  simp [Function.comp_def]

/-- Claim C8, witness: a concrete duplicated explicit list is preserved
as two rows. -/
theorem compare_default_and_order_witness :
    (["balanced", "balanced"] : List String) ≠ [] ∧
    ((compare_pricing_scenarios [] (some ["balanced", "balanced"]) 15 20 5 15
        "R").comparison.by_strategy.map fun row => row.strategy)
      = ["balanced", "balanced"] :=
  ⟨by simp,
   (compare_default_and_order [] 15 20 5 15 "R").2.2.2 ["balanced", "balanced"]
     (by simp)⟩

/-- Claim C10: the scenarios dict is keyed by strategy, so its keys are
duplicate-free and each strategy in the input list maps to the model
computed for it by `build_pricing_table` (a later duplicate overwrites an
earlier, identical, entry), while `comparison.by_strategy` has one row
per occurrence; for the duplicated input ["balanced", "balanced"] the
dict has one entry but the comparison has two rows, so the two views
disagree in length. -/
theorem scenarios_map_vs_rows (pricing_items : List PricingItemInput)
    (overhead_pct profit_margin_pct contingency_pct tax_rate_pct : ℚ)
    (currency_symbol : String) (l : List String) (hl : l ≠ []) :
    ((compare_pricing_scenarios pricing_items (some l) overhead_pct
        profit_margin_pct contingency_pct tax_rate_pct
        currency_symbol).scenarios.map Prod.fst).Nodup ∧
    (∀ s ∈ l, dictGet (compare_pricing_scenarios pricing_items (some l)
        overhead_pct profit_margin_pct contingency_pct tax_rate_pct
        currency_symbol).scenarios s =
      some (build_pricing_table pricing_items s overhead_pct profit_margin_pct
        contingency_pct tax_rate_pct currency_symbol)) ∧
    (compare_pricing_scenarios pricing_items (some l) overhead_pct
        profit_margin_pct contingency_pct tax_rate_pct
        currency_symbol).comparison.by_strategy.length = l.length ∧
    (compare_pricing_scenarios pricing_items (some ["balanced", "balanced"])
        overhead_pct profit_margin_pct contingency_pct tax_rate_pct
        currency_symbol).scenarios.length = 1 ∧
    (compare_pricing_scenarios pricing_items (some ["balanced", "balanced"])
        overhead_pct profit_margin_pct contingency_pct tax_rate_pct
        currency_symbol).comparison.by_strategy.length = 2 := by
  have hlen : ¬ (l.length = 0) := by
    simpa [List.length_eq_zero] using hl
  refine ⟨?_, ?_, ?_, rfl, rfl⟩
  · simp only [compare_pricing_scenarios, if_neg hlen]
    exact foldl_dictInsert_keys_nodup _ l [] (by simp)
  · intro s hs
    simp only [compare_pricing_scenarios, if_neg hlen]
    rw [dictGet_foldl]
    rw [if_pos hs]
  · simp only [compare_pricing_scenarios, if_neg hlen, List.length_map]

/-- Claim C10, witness at the concrete duplicated strategy list. -/
theorem scenarios_map_vs_rows_witness :
    ((compare_pricing_scenarios [] (some ["balanced", "balanced"]) 15 20 5 15
        "R").scenarios.map Prod.fst).Nodup ∧
    (compare_pricing_scenarios [] (some ["balanced", "balanced"]) 15 20 5 15
        "R").scenarios.length = 1 ∧
    (compare_pricing_scenarios [] (some ["balanced", "balanced"]) 15 20 5 15
        "R").comparison.by_strategy.length = 2 := by
  have h := scenarios_map_vs_rows [] 15 20 5 15 "R" ["balanced", "balanced"]
    (by simp)
  exact ⟨h.1, h.2.2.2.1, h.2.2.2.2⟩
